import Mathlib

/-!
# GifFace: the animation, motion and lifecycle logic of `GifFace.cpp`

A shallow embedding of the program's globals and of the functions that act on
them.  The globals of the C++ file become the fields of `State`; every function
of the file becomes a function on `State`.  What the operating system answers
(download results, the decoded image, GDI handles, screen metrics) is passed in
as an `Env`.

Machine arithmetic: `int` is 32-bit two's complement (`wrapInt`), `UINT` is
arithmetic modulo `2^32` (`wrapUInt`).
-/

namespace GifFace

/-! ## Machine integers -/

/-- Value of a C++ `int` expression whose mathematical result is `v`: the
32-bit two's complement representative. -/
def wrapInt (v : Int) : Int := (v + 2147483648) % 4294967296 - 2147483648

/-- Value of a C++ `UINT` expression whose mathematical result is `v`. -/
def wrapUInt (v : Nat) : Nat := v % 4294967296

/-! ## Data model -/

/-- GDI+ `PropertyItem` as filled in by `Image::GetPropertyItem`: `length` is the
field `pi->length` (a byte count), `value` the bytes `pi->value` points to. -/
structure PropertyItem where
  length : Nat
  value : List Nat
deriving DecidableEq, Repr

/-- What the GDI+ `Image` object opened by `new Image(path)` answers to the
queries the program makes of it. -/
structure Image where
  /-- Whether `GetLastStatus()` is `Ok`. -/
  lastStatusOk : Bool
  /-- Result of `GetFrameDimensionsCount()`. -/
  frameDimensionsCount : Nat
  /-- Result of `GetFrameCount` for the first frame dimension. -/
  frameCount : Nat
  /-- Result of `GetWidth()`. -/
  width : Nat
  /-- Result of `GetHeight()`. -/
  height : Nat
  /-- Result of `GetPropertyItemSize(FrameDelay)`; 0 when the property is absent. -/
  frameDelaySize : Nat
  /-- Result of `GetPropertyItem(FrameDelay, ..)`: `none` when the status is not `Ok`. -/
  frameDelayItem : Option PropertyItem
deriving DecidableEq, Repr

/-- The three error texts the program shows with `MessageBoxW`. -/
inductive ErrorText
  | downloadFailed
  | loadFailed
  | backbufferFailed
deriving DecidableEq, Repr

/-- Calls into the operating system that are visible outside the process. -/
inductive Effect
  | messageBox (text : ErrorText)
  | createDIBSection (w h : Int)
  | zeroMemory (stride h : Int)
  | selectActiveFrame (index : Nat)
  | drawImage (w h : Int)
  | updateLayeredWindow (x y w h : Int)
  | deleteFile
  | destroyWindow
  | postQuitMessage (code : Int)
  | showWindow
  | updateWindow
  | gdiplusShutdown
deriving DecidableEq, Repr

/-- The globals of `GifFace.cpp`, together with the part of the window host's
state the program drives (its two timers, the hotkey registration) and the log
of visible effects. -/
structure State where
  /-- Global `g_gif`; `none` is `nullptr`. -/
  gif : Option Image
  frameCount : Nat
  frameIndex : Nat
  delaysMs : List Nat
  x : Int
  y : Int
  vx : Int
  vy : Int
  w : Int
  h : Int
  /-- Global `g_hDib` is non-null. -/
  hDib : Bool
  /-- Global `g_dibBits` is non-null. -/
  dibBits : Bool
  /-- Global `g_memDC` is non-null. -/
  memDC : Bool
  stride : Int
  /-- Global `g_tempGifPath` is a non-empty string. -/
  tempGifPath : Bool
  /-- Interval of the animation timer (id 1) when it is armed. -/
  gifTimer : Option Nat
  /-- Interval of the movement timer (id 2) when it is armed. -/
  moveTimer : Option Nat
  hotkeyRegistered : Bool
  trace : List Effect
deriving DecidableEq, Repr

/-- One `InternetReadFile` call of the download loop with the `WriteFile` call
that follows it. -/
structure Chunk where
  readOk : Bool
  bytesRead : Nat
  writeOk : Bool
  bytesWritten : Nat
deriving DecidableEq, Repr

/-- Answers of the operating system while one message is handled. -/
structure Env where
  getTempPathOk : Bool
  getTempFileNameOk : Bool
  internetOpenOk : Bool
  internetOpenUrlOk : Bool
  createFileOk : Bool
  /-- Successive read/write results of the download loop; after the last one
  the read reports the end of the data. -/
  chunks : List Chunk
  /-- The object `new Image(path)` yields. -/
  image : Image
  getDCOk : Bool
  createCompatibleDCOk : Bool
  /-- Whether `CreateDIBSection` returns a non-null bitmap. -/
  dibOk : Bool
  /-- Whether `CreateDIBSection` stores a non-null bits pointer. -/
  dibBitsOk : Bool
  /-- Value of `GetSystemMetrics(SM_CXSCREEN)`. -/
  screenW : Int
  /-- Value of `GetSystemMetrics(SM_CYSCREEN)`. -/
  screenH : Int
deriving DecidableEq, Repr

def g_gifTimerId : Nat := 1
def g_moveTimerId : Nat := 2
def g_hotkeyId : Int := 1001

/-- Static initialisers of the globals. -/
def initialState : State :=
  { gif := none, frameCount := 0, frameIndex := 0, delaysMs := [],
    x := 500, y := 300, vx := 6, vy := 5, w := 320, h := 240,
    hDib := false, dibBits := false, memDC := false, stride := 0,
    tempGifPath := false, gifTimer := none, moveTimer := none,
    hotkeyRegistered := false, trace := [] }

/-! ## Utilities -/

def SafeDeleteGif (s : State) : State :=
  { s with gif := none, frameCount := 0, frameIndex := 0, delaysMs := [] }

def FreeBackbuffer (s : State) : State :=
  { s with memDC := false, hDib := false, dibBits := false, stride := 0 }

/-- Element `i` of the `UINT` array that `pi->value` is reinterpreted as
(little-endian, four bytes per element). -/
def readUInt (value : List Nat) (i : Nat) : Nat :=
  value.getD (4 * i) 0 % 256
    + 256 * (value.getD (4 * i + 1) 0 % 256)
    + 65536 * (value.getD (4 * i + 2) 0 % 256)
    + 16777216 * (value.getD (4 * i + 3) 0 % 256)

/-- The call `v.assign(n, val)` of `std::vector`. -/
def vectorAssign (n val : Nat) : List Nat := List.replicate n val

/-- The call `v.resize(n, val)` of `std::vector`. -/
def vectorResize (v : List Nat) (n val : Nat) : List Nat :=
  v.take n ++ List.replicate (n - v.length) val

/-- Value the `for` loop of `LoadGifDelays` computes for index `i`: the final
value of the local `ms`. -/
def frameDelayMs (pi : PropertyItem) (count i : Nat) : Nat :=
  let d := if i < count then readUInt pi.value i else readUInt pi.value (count - 1)
  let ms := wrapUInt (d * 10)
  if ms < 10 then 10 else ms

/-- Body of the `for` loop of `LoadGifDelays` at index `i`. -/
def delayLoopBody (pi : PropertyItem) (count : Nat) (s : State) (i : Nat) : State :=
  { s with delaysMs := s.delaysMs.set i (frameDelayMs pi count i) }

def LoadGifDelays (img : Image) (s : State) : State :=
  let s := { s with delaysMs := [] }
  let size := img.frameDelaySize
  if size = 0 then
    { s with delaysMs := vectorAssign s.frameCount 100 }
  else
    match img.frameDelayItem with
    | none => { s with delaysMs := vectorAssign s.frameCount 100 }
    | some pi =>
      if pi.length < 4 then
        { s with delaysMs := vectorAssign s.frameCount 100 }
      else
        let count := pi.length / 4
        let s := { s with delaysMs := vectorResize s.delaysMs s.frameCount 100 }
        (List.range s.frameCount).foldl (delayLoopBody pi count) s

def InitGifFromFile (env : Env) (s : State) : State × Bool :=
  let s := SafeDeleteGif s
  let s := { s with gif := some env.image }
  if !env.image.lastStatusOk then (s, false)
  else
    let dimCount := env.image.frameDimensionsCount
    if dimCount = 0 then (s, false)
    else
      let s := { s with frameCount := env.image.frameCount }
      if s.frameCount = 0 then (s, false)
      else
        let s := { s with frameIndex := 0 }
        let s := { s with w := wrapInt env.image.width }
        let s := { s with h := wrapInt env.image.height }
        (LoadGifDelays env.image s, true)

def CreateBackbuffer (env : Env) (w h : Int) (s : State) : State × Bool :=
  let s := FreeBackbuffer s
  if !env.getDCOk then (s, false)
  else
    let s := { s with memDC := env.createCompatibleDCOk }
    if !s.memDC then (s, false)
    else
      let s := { s with hDib := env.dibOk, dibBits := env.dibBitsOk,
                        trace := s.trace ++ [Effect.createDIBSection w h] }
      if !s.hDib || !s.dibBits then (FreeBackbuffer s, false)
      else ({ s with stride := wrapInt (w * 4) }, true)

def BounceStep (env : Env) (s : State) : State :=
  let screenW := env.screenW
  let screenH := env.screenH
  let s := { s with x := wrapInt (s.x + s.vx) }
  let s := { s with y := wrapInt (s.y + s.vy) }
  let s := if s.x < 0 then { s with x := 0, vx := wrapInt (-s.vx) } else s
  let s := if s.y < 0 then { s with y := 0, vy := wrapInt (-s.vy) } else s
  let s := if wrapInt (s.x + s.w) > screenW then
      { s with x := wrapInt (screenW - s.w), vx := wrapInt (-s.vx) } else s
  let s := if wrapInt (s.y + s.h) > screenH then
      { s with y := wrapInt (screenH - s.h), vy := wrapInt (-s.vy) } else s
  s

/-- The read/write loop of `DownloadToTempFile`; the result is the final value
of the local `ok`. -/
def downloadLoop : List Chunk → Bool
  | [] => true
  | c :: rest =>
    if c.readOk && decide (c.bytesRead > 0) then
      if !c.writeOk || decide (c.bytesWritten ≠ c.bytesRead) then false
      else downloadLoop rest
    else true

def DownloadToTempFile (env : Env) (s : State) : State × Bool :=
  if !env.getTempPathOk then (s, false)
  else if !env.getTempFileNameOk then (s, false)
  else
    -- GetTempFileNameW has written the file name into outPath
    let s := { s with tempGifPath := true }
    if !env.internetOpenOk then (s, false)
    else if !env.internetOpenUrlOk then (s, false)
    else if !env.createFileOk then (s, false)
    else
      let ok := downloadLoop env.chunks
      if !ok then
        ({ s with trace := s.trace ++ [Effect.deleteFile], tempGifPath := false }, false)
      else (s, true)

def RenderLayered (s : State) : State :=
  if s.gif.isNone || !s.memDC || !s.dibBits then s
  else
    { s with trace := s.trace ++
        [Effect.zeroMemory s.stride s.h,
         Effect.selectActiveFrame s.frameIndex,
         Effect.drawImage s.w s.h,
         Effect.updateLayeredWindow s.x s.y s.w s.h] }

/-! ## Window procedure -/

/-- The messages `WndProc` distinguishes.  `quit` is the `WM_QUIT` that makes
`GetMessageW` return 0; `other` is any message of the `default` branch. -/
inductive Msg
  | create
  | nchittest
  | erasebkgnd
  | hotkey (wParam : Nat)
  | timer (wParam : Nat)
  | destroy
  | quit
  | other
deriving DecidableEq, Repr

def HTTRANSPARENT : Int := -1

def wmCreate (env : Env) (s : State) : State × Int :=
  let r := DownloadToTempFile env s
  let s := r.1
  if !r.2 then
    ({ s with trace := s.trace ++ [Effect.messageBox ErrorText.downloadFailed] }, -1)
  else
    let r := InitGifFromFile env s
    let s := r.1
    if !r.2 then
      ({ s with trace := s.trace ++ [Effect.messageBox ErrorText.loadFailed] }, -1)
    else
      let r := CreateBackbuffer env s.w s.h s
      let s := r.1
      if !r.2 then
        ({ s with trace := s.trace ++ [Effect.messageBox ErrorText.backbufferFailed] }, -1)
      else
        -- ApplyOverlayStyles changes window styles only
        let s := { s with hotkeyRegistered := true }
        let first := if s.delaysMs.isEmpty then 100 else s.delaysMs.getD 0 0
        let s := { s with gifTimer := some first }
        let s := { s with moveTimer := some 16 }
        (RenderLayered s, 0)

def wmTimer (env : Env) (wParam : Nat) (s : State) : State × Int :=
  if wParam = g_gifTimerId && s.gif.isSome && decide (s.frameCount > 0) then
    let s := { s with frameIndex := wrapUInt (s.frameIndex + 1) % s.frameCount }
    let nextDelay :=
      if s.frameIndex < s.delaysMs.length then s.delaysMs.getD s.frameIndex 0 else 100
    let s := { s with gifTimer := none }
    let s := { s with gifTimer := some nextDelay }
    (RenderLayered s, 0)
  else if wParam = g_moveTimerId then
    (RenderLayered (BounceStep env s), 0)
  else (s, 0)

def wmDestroy (s : State) : State × Int :=
  let s := { s with gifTimer := none }
  let s := { s with moveTimer := none }
  let s := { s with hotkeyRegistered := false }
  let s := FreeBackbuffer s
  let s := SafeDeleteGif s
  let s := if s.tempGifPath then
      { s with trace := s.trace ++ [Effect.deleteFile], tempGifPath := false } else s
  ({ s with trace := s.trace ++ [Effect.postQuitMessage 0] }, 0)

/-- The window procedure.  `DestroyWindow` sends `WM_DESTROY` to the window
procedure before it returns, so the hotkey branch runs `wmDestroy`. -/
def WndProc (env : Env) (msg : Msg) (s : State) : State × Int :=
  match msg with
  | Msg.create => wmCreate env s
  | Msg.nchittest => (s, HTTRANSPARENT)
  | Msg.erasebkgnd => (s, 1)
  | Msg.hotkey wParam =>
    if wrapInt wParam = g_hotkeyId then
      ((wmDestroy { s with trace := s.trace ++ [Effect.destroyWindow] }).1, 0)
    else (s, 0)
  | Msg.timer wParam => wmTimer env wParam s
  | Msg.destroy => wmDestroy s
  | _ => (s, 0)

/-! ## Entry point -/

/-- Behaviour of the window host at start-up. -/
structure Host where
  /-- Whether `GdiplusStartup` returns `Ok`. -/
  gdiplusStartupOk : Bool
  /-- Whether `CreateWindowExW` gets as far as sending `WM_CREATE`. -/
  sendsCreate : Bool
  /-- Whether the window that `WM_CREATE` rejected with -1 is sent `WM_DESTROY`
  while it is torn down. -/
  destroyAfterFailedCreate : Bool
  /-- Answers of the system during `WM_CREATE`. -/
  createEnv : Env
deriving DecidableEq, Repr

/-- `CreateWindowExW`: the new window handle is non-null exactly when the
second component is `true`.  A `WM_CREATE` result of -1 destroys the window and
yields a null handle. -/
def CreateWindowExW (host : Host) (s : State) : State × Bool :=
  if !host.sendsCreate then (s, false)
  else
    let r := WndProc host.createEnv Msg.create s
    let s := r.1
    if r.2 = -1 then
      (if host.destroyAfterFailedCreate then (WndProc host.createEnv Msg.destroy s).1 else s,
       false)
    else (s, true)

/-- The loop `while (GetMessageW(..)) DispatchMessageW(..)`, over the messages
`GetMessageW` retrieves.  `none`: the given messages end before `WM_QUIT`. -/
def messageLoop : List (Env × Msg) → State → Option State
  | [], _ => none
  | (env, msg) :: rest, s =>
    if msg = Msg.quit then some s
    else messageLoop rest (WndProc env msg s).1

/-- Function `wWinMain`: the exit code and the final state, or `none` when the
message loop is still running after the given messages. -/
def wWinMain (host : Host) (msgs : List (Env × Msg)) : Option (Int × State) :=
  let s := initialState
  if !host.gdiplusStartupOk then some (0, s)
  else
    let r := CreateWindowExW host s
    let s := r.1
    if !r.2 then
      some (0, { s with trace := s.trace ++ [Effect.gdiplusShutdown] })
    else
      let s := { s with trace := s.trace ++ [Effect.showWindow] }
      let s := { s with trace := s.trace ++ [Effect.updateWindow] }
      match messageLoop msgs s with
      | none => none
      | some s => some (0, { s with trace := s.trace ++ [Effect.gdiplusShutdown] })

/-- Handling of a sequence of messages by the window procedure. -/
def dispatchAll : List (Env × Msg) → State → State
  | [], s => s
  | (env, msg) :: rest, s => dispatchAll rest (WndProc env msg s).1

/-- Number of frame draws and layered-window presentations in a log. -/
def renderCount : List Effect → Nat
  | [] => 0
  | Effect.drawImage _ _ :: t => renderCount t + 1
  | Effect.updateLayeredWindow _ _ _ _ :: t => renderCount t + 1
  | _ :: t => renderCount t

/-! ## Vocabulary of the properties -/

/-- Environment in which only the screen metrics matter. -/
def screenEnv (W H : Int) : Env :=
  { getTempPathOk := false, getTempFileNameOk := false, internetOpenOk := false,
    internetOpenUrlOk := false, createFileOk := false, chunks := [],
    image := { lastStatusOk := false, frameDimensionsCount := 0, frameCount := 0,
               width := 0, height := 0, frameDelaySize := 0, frameDelayItem := none },
    getDCOk := false, createCompatibleDCOk := false, dibOk := false, dibBitsOk := false,
    screenW := W, screenH := H }

/-- State whose motion globals are the given ones; the rest is as initialised. -/
def motionState (x y vx vy w h : Int) : State :=
  { initialState with x := x, y := y, vx := vx, vy := vy, w := w, h := h }

/-- Along one axis: the sprite is no larger than the screen, and the sums the
tick forms (position plus velocity, clamped position plus size) are
representable as `int`. -/
def AxisInRange (pos vel size bound : Int) : Prop :=
  0 ≤ size ∧ size ≤ bound ∧ bound < 2147483648 ∧
    -2147483648 ≤ pos + vel ∧ pos + vel + size < 2147483648

instance (pos vel size bound : Int) : Decidable (AxisInRange pos vel size bound) := by
  unfold AxisInRange; infer_instance

/-- The guard `g_x < 0` of `BounceStep` holds in the tick from `s`. -/
def clampedLowX (s : State) : Prop := wrapInt (s.x + s.vx) < 0

/-- The guard `g_y < 0` of `BounceStep` holds in the tick from `s`. -/
def clampedLowY (s : State) : Prop := wrapInt (s.y + s.vy) < 0

/-- The guard `g_x + g_w > screenW` of `BounceStep` holds in the tick from `s`. -/
def clampedHighX (env : Env) (s : State) : Prop :=
  wrapInt ((if wrapInt (s.x + s.vx) < 0 then 0 else wrapInt (s.x + s.vx)) + s.w) > env.screenW

/-- The guard `g_y + g_h > screenH` of `BounceStep` holds in the tick from `s`. -/
def clampedHighY (env : Env) (s : State) : Prop :=
  wrapInt ((if wrapInt (s.y + s.vy) < 0 then 0 else wrapInt (s.y + s.vy)) + s.h) > env.screenH

instance (s : State) : Decidable (clampedLowX s) := by
  unfold clampedLowX; infer_instance

instance (s : State) : Decidable (clampedLowY s) := by
  unfold clampedLowY; infer_instance

instance (env : Env) (s : State) : Decidable (clampedHighX env s) := by
  unfold clampedHighX; infer_instance

instance (env : Env) (s : State) : Decidable (clampedHighY env s) := by
  unfold clampedHighY; infer_instance

/-- Image whose only relevant content is its frame-delay property. -/
def delayImage (size : Nat) (item : Option PropertyItem) : Image :=
  { lastStatusOk := true, frameDimensionsCount := 1, frameCount := 0, width := 0,
    height := 0, frameDelaySize := size, frameDelayItem := item }

/-- State with the given frame count; the rest is as initialised. -/
def framesState (n : Nat) : State := { initialState with frameCount := n }

/-- The conversion as the specification words it: hundredths of a second times
10, a result of 0 replaced by 10. -/
def specDelayMs (d : Nat) : Nat := if d * 10 = 0 then 10 else d * 10

/-- Frame-delay property declaring 2 and 4 hundredths of a second. -/
def twoDelays : PropertyItem := { length := 8, value := [2, 0, 0, 0, 4, 0, 0, 0] }

/-- Frame-delay property declaring the single delay 429496730 (0x1999999A). -/
def hugeDelay : PropertyItem := { length := 4, value := [154, 153, 153, 25] }

/-- Frame-delay property declaring 5, 10 and 1 hundredths of a second. -/
def threeDelays : PropertyItem :=
  { length := 12, value := [5, 0, 0, 0, 10, 0, 0, 0, 1, 0, 0, 0] }

/-- Environment in which every start-up step succeeds: a 320x240 image of three
frames with delays of 5, 10 and 1 hundredths of a second, on a 1000x800 screen. -/
def goodEnv : Env :=
  { getTempPathOk := true, getTempFileNameOk := true, internetOpenOk := true,
    internetOpenUrlOk := true, createFileOk := true, chunks := [],
    image := { lastStatusOk := true, frameDimensionsCount := 1, frameCount := 3,
               width := 320, height := 240, frameDelaySize := 28,
               frameDelayItem := some threeDelays },
    getDCOk := true, createCompatibleDCOk := true, dibOk := true, dibBitsOk := true,
    screenW := 1000, screenH := 800 }

/-- Running state of a three-frame animation with durations 50, 100 and 10 ms
and the given active index. -/
def runningState (index : Nat) : State :=
  { initialState with gif := some goodEnv.image, frameCount := 3, frameIndex := index,
                      delaysMs := [50, 100, 10], hDib := true, dibBits := true,
                      memDC := true, stride := 1280 }

/-- Host whose `GdiplusStartup` succeeds and whose window creation reaches
`WM_CREATE`, where `GetTempPathW` fails. -/
def failingHost (destroyAfterFailedCreate : Bool) : Host :=
  { gdiplusStartupOk := true, sendsCreate := true,
    destroyAfterFailedCreate := destroyAfterFailedCreate,
    createEnv := screenEnv 1000 800 }

/-! ## Motion engine -/

/-- The clamp guards describe where `BounceStep` leaves the x position. -/
theorem BounceStep_x_cases (env : Env) (s : State) :
    (BounceStep env s).x =
      if clampedHighX env s then wrapInt (env.screenW - s.w)
      else if clampedLowX s then 0 else wrapInt (s.x + s.vx) := by
  unfold BounceStep clampedHighX clampedLowX
  dsimp only
  split_ifs <;> rfl

/-- The clamp guards describe where `BounceStep` leaves the y position. -/
theorem BounceStep_y_cases (env : Env) (s : State) :
    (BounceStep env s).y =
      if clampedHighY env s then wrapInt (env.screenH - s.h)
      else if clampedLowY s then 0 else wrapInt (s.y + s.vy) := by
  unfold BounceStep clampedHighY clampedLowY
  dsimp only
  split_ifs <;> rfl

/-- The clamp guards describe what `BounceStep` does to the x velocity: one
negation per guard that holds. -/
theorem BounceStep_vx_cases (env : Env) (s : State) :
    (BounceStep env s).vx =
      if clampedHighX env s then
        wrapInt (-(if clampedLowX s then wrapInt (-s.vx) else s.vx))
      else if clampedLowX s then wrapInt (-s.vx) else s.vx := by
  unfold BounceStep clampedHighX clampedLowX
  dsimp only
  split_ifs <;> rfl

/-- The clamp guards describe what `BounceStep` does to the y velocity: one
negation per guard that holds. -/
theorem BounceStep_vy_cases (env : Env) (s : State) :
    (BounceStep env s).vy =
      if clampedHighY env s then
        wrapInt (-(if clampedLowY s then wrapInt (-s.vy) else s.vy))
      else if clampedLowY s then wrapInt (-s.vy) else s.vy := by
  unfold BounceStep clampedHighY clampedLowY
  dsimp only
  split_ifs <;> rfl

/-- C1, as stated, fails: on an 800x600 screen the 1024x240 sprite at (0,10) with
velocity (6,5) is moved to x = -224. -/
theorem BounceStep_position_escapes_small_screen :
    (BounceStep (screenEnv 800 600) (motionState 0 10 6 5 1024 240)).x = -224 ∧
    ¬ (0 ≤ (BounceStep (screenEnv 800 600) (motionState 0 10 6 5 1024 240)).x ∧
       (BounceStep (screenEnv 800 600) (motionState 0 10 6 5 1024 240)).x ≤ 800 - 1024 ∧
       0 ≤ (BounceStep (screenEnv 800 600) (motionState 0 10 6 5 1024 240)).y ∧
       (BounceStep (screenEnv 800 600) (motionState 0 10 6 5 1024 240)).y ≤ 600 - 240) := by
  decide

/-- C1, amended: when the sprite is no larger than the screen on either axis and
no `int` sum of the tick overflows, the position after one `BounceStep` tick
satisfies `0 <= x <= W - w` and `0 <= y <= H - h`. -/
theorem BounceStep_position_in_bounds (env : Env) (s : State)
    (hx : AxisInRange s.x s.vx s.w env.screenW)
    (hy : AxisInRange s.y s.vy s.h env.screenH) :
    0 ≤ (BounceStep env s).x ∧ (BounceStep env s).x ≤ env.screenW - s.w ∧
    0 ≤ (BounceStep env s).y ∧ (BounceStep env s).y ≤ env.screenH - s.h := by
  obtain ⟨a1, a2, a3, a4, a5⟩ := hx
  obtain ⟨b1, b2, b3, b4, b5⟩ := hy
  unfold BounceStep wrapInt
  dsimp only
  split_ifs <;> (dsimp only at *; omega)

/-- Witness of `BounceStep_position_in_bounds`: the 320x240 sprite at (900,10)
with velocity (6,5) on a 1000x800 screen. -/
theorem BounceStep_position_in_bounds_witness :
    AxisInRange 900 6 320 1000 ∧ AxisInRange 10 5 240 800 ∧
    (0 ≤ (BounceStep (screenEnv 1000 800) (motionState 900 10 6 5 320 240)).x ∧
     (BounceStep (screenEnv 1000 800) (motionState 900 10 6 5 320 240)).x ≤ 1000 - 320 ∧
     0 ≤ (BounceStep (screenEnv 1000 800) (motionState 900 10 6 5 320 240)).y ∧
     (BounceStep (screenEnv 1000 800) (motionState 900 10 6 5 320 240)).y ≤ 800 - 240) :=
  ⟨by decide, by decide,
   BounceStep_position_in_bounds (screenEnv 1000 800) (motionState 900 10 6 5 320 240)
     (by decide) (by decide)⟩

/-- C2, as stated, fails: on an 800x600 screen the 1024x240 sprite at (0,10) with
velocity (-6,5) is clamped on the x axis (at both edges), yet `vx` is -6 after
the tick, not 6. -/
theorem BounceStep_double_clamp_keeps_velocity :
    clampedLowX (motionState 0 10 (-6) 5 1024 240) ∧
    clampedHighX (screenEnv 800 600) (motionState 0 10 (-6) 5 1024 240) ∧
    (BounceStep (screenEnv 800 600) (motionState 0 10 (-6) 5 1024 240)).vx = -6 ∧
    (BounceStep (screenEnv 800 600) (motionState 0 10 (-6) 5 1024 240)).vx ≠ -(-6) := by
  decide

/-- C2, amended: when the sprite is no larger than the screen on either axis, no
`int` sum of the tick overflows and both velocities and their negations are
representable as `int`, one `BounceStep` tick negates `vx` if
the x position was clamped and keeps it otherwise, and likewise for `vy`; the
magnitude of either velocity is unchanged. -/
theorem BounceStep_velocity_flips_on_clamped_axis (env : Env) (s : State)
    (hx : AxisInRange s.x s.vx s.w env.screenW)
    (hy : AxisInRange s.y s.vy s.h env.screenH)
    (hvx : -2147483648 < s.vx ∧ s.vx < 2147483648)
    (hvy : -2147483648 < s.vy ∧ s.vy < 2147483648) :
    ((clampedLowX s ∨ clampedHighX env s) → (BounceStep env s).vx = -s.vx) ∧
    (¬ (clampedLowX s ∨ clampedHighX env s) → (BounceStep env s).vx = s.vx) ∧
    ((clampedLowY s ∨ clampedHighY env s) → (BounceStep env s).vy = -s.vy) ∧
    (¬ (clampedLowY s ∨ clampedHighY env s) → (BounceStep env s).vy = s.vy) ∧
    (BounceStep env s).vx.natAbs = s.vx.natAbs ∧
    (BounceStep env s).vy.natAbs = s.vy.natAbs := by
  obtain ⟨a1, a2, a3, a4, a5⟩ := hx
  obtain ⟨b1, b2, b3, b4, b5⟩ := hy
  have kx : ((clampedLowX s ∨ clampedHighX env s) → (BounceStep env s).vx = -s.vx) ∧
      (¬ (clampedLowX s ∨ clampedHighX env s) → (BounceStep env s).vx = s.vx) := by
    rw [BounceStep_vx_cases]
    unfold clampedLowX clampedHighX wrapInt
    constructor <;> intro hc <;> split_ifs at * <;> omega
  have ky : ((clampedLowY s ∨ clampedHighY env s) → (BounceStep env s).vy = -s.vy) ∧
      (¬ (clampedLowY s ∨ clampedHighY env s) → (BounceStep env s).vy = s.vy) := by
    rw [BounceStep_vy_cases]
    unfold clampedLowY clampedHighY wrapInt
    constructor <;> intro hc <;> split_ifs at * <;> omega
  refine ⟨kx.1, kx.2, ky.1, ky.2, ?_, ?_⟩
  · by_cases hc : clampedLowX s ∨ clampedHighX env s
    · rw [kx.1 hc, Int.natAbs_neg]
    · rw [kx.2 hc]
  · by_cases hc : clampedLowY s ∨ clampedHighY env s
    · rw [ky.1 hc, Int.natAbs_neg]
    · rw [ky.2 hc]

/-- Witness of `BounceStep_velocity_flips_on_clamped_axis`: bounds 1000x800, size
320x240, position (900,10), velocity (6,5) gives position (680,15) and
velocity (-6,5); the x axis clamped, the y axis did not. -/
theorem BounceStep_velocity_flips_on_clamped_axis_witness :
    AxisInRange 900 6 320 1000 ∧ AxisInRange 10 5 240 800 ∧
    clampedHighX (screenEnv 1000 800) (motionState 900 10 6 5 320 240) ∧
    ¬ (clampedLowY (motionState 900 10 6 5 320 240) ∨
       clampedHighY (screenEnv 1000 800) (motionState 900 10 6 5 320 240)) ∧
    (BounceStep (screenEnv 1000 800) (motionState 900 10 6 5 320 240)).vx = -6 ∧
    (BounceStep (screenEnv 1000 800) (motionState 900 10 6 5 320 240)).vy = 5 ∧
    (BounceStep (screenEnv 1000 800) (motionState 900 10 6 5 320 240)).x = 680 ∧
    (BounceStep (screenEnv 1000 800) (motionState 900 10 6 5 320 240)).y = 15 :=
  have h := BounceStep_velocity_flips_on_clamped_axis (screenEnv 1000 800)
    (motionState 900 10 6 5 320 240) (by decide) (by decide) (by decide) (by decide)
  ⟨by decide, by decide, by decide, by decide,
   h.1 (Or.inr (by decide)), h.2.2.2.1 (by decide), by decide, by decide⟩

/-! ## Frame delays -/

theorem setLoop_length (f : Nat → Nat) (k : Nat) (l : List Nat) :
    ((List.range k).foldl (fun l i => l.set i (f i)) l).length = l.length := by
  induction k with
  | zero => simp
  | succ k ih => simp [List.range_succ, List.foldl_append, ih]

theorem setLoop_getElem_opt (f : Nat → Nat) (k : Nat) (l : List Nat) (j : Nat) :
    ((List.range k).foldl (fun l i => l.set i (f i)) l)[j]? =
      if j < k ∧ j < l.length then some (f j) else l[j]? := by
  induction k with
  | zero => simp
  | succ k ih =>
    simp only [List.range_succ, List.foldl_append, List.foldl_cons, List.foldl_nil,
      List.getElem?_set, setLoop_length, ih]
    by_cases hkj : k = j
    · subst hkj
      by_cases hl : k < l.length
      · simp [hl]
      · simp [hl, List.getElem?_eq_none (Nat.le_of_not_lt hl)]
    · have h1 : (j < k + 1 ∧ j < l.length) ↔ (j < k ∧ j < l.length) := by omega
      simp only [hkj, if_false, h1]

theorem delayLoop_delaysMs (pi : PropertyItem) (count : Nat) (is : List Nat) (s : State) :
    (is.foldl (delayLoopBody pi count) s).delaysMs =
      is.foldl (fun l i => l.set i (frameDelayMs pi count i)) s.delaysMs := by
  induction is generalizing s with
  | nil => rfl
  | cons i is ih => simp only [List.foldl_cons, ih]; rfl

/-- The table `LoadGifDelays` builds when the frame-delay property is usable. -/
theorem LoadGifDelays_declared (img : Image) (s : State) (pi : PropertyItem)
    (hsize : img.frameDelaySize ≠ 0) (hitem : img.frameDelayItem = some pi)
    (hlen : 4 ≤ pi.length) :
    (LoadGifDelays img s).delaysMs.length = s.frameCount ∧
    ∀ j, j < s.frameCount →
      (LoadGifDelays img s).delaysMs[j]? = some (frameDelayMs pi (pi.length / 4) j) := by
  have hnot : ¬ pi.length < 4 := by omega
  simp only [LoadGifDelays, hsize, hitem, hnot, if_false, delayLoop_delaysMs, vectorResize,
    setLoop_length, setLoop_getElem_opt]
  constructor
  · simp
  · intro j hj
    simp [hj]

/-- The table `LoadGifDelays` builds when the frame-delay property is unusable. -/
theorem LoadGifDelays_default (img : Image) (s : State)
    (h : img.frameDelaySize = 0 ∨ img.frameDelayItem = none ∨
      ∃ pi, img.frameDelayItem = some pi ∧ pi.length < 4) :
    (LoadGifDelays img s).delaysMs = List.replicate s.frameCount 100 := by
  unfold LoadGifDelays vectorAssign
  by_cases h0 : img.frameDelaySize = 0
  · simp [h0]
  · rcases h with h | h | ⟨pi, hpi, hlt⟩
    · exact absurd h h0
    · simp [h0, h]
    · simp [h0, hpi, hlt]

theorem frameDelayMs_ge (pi : PropertyItem) (count i : Nat) : 10 ≤ frameDelayMs pi count i := by
  unfold frameDelayMs
  dsimp only
  split_ifs <;> omega

/-- The table `LoadGifDelays` builds has one entry per frame. -/
theorem LoadGifDelays_length_at (img : Image) (s : State) :
    (LoadGifDelays img s).delaysMs.length = s.frameCount := by
  by_cases h0 : img.frameDelaySize = 0
  · rw [LoadGifDelays_default img s (Or.inl h0)]; simp
  · cases hitem : img.frameDelayItem with
    | none => rw [LoadGifDelays_default img s (Or.inr (Or.inl hitem))]; simp
    | some pi =>
      by_cases hlen : pi.length < 4
      · rw [LoadGifDelays_default img s (Or.inr (Or.inr ⟨pi, hitem, hlen⟩))]; simp
      · exact (LoadGifDelays_declared img s pi h0 hitem (by omega)).1

/-- C3: every entry of the table built by `LoadGifDelays`, at any index below
the frame count and for any frame-delay metadata, is at least 10 ms. -/
theorem LoadGifDelays_entries_at_least_10 (img : Image) (s : State) (i : Nat)
    (hi : i < s.frameCount) :
    ∃ d, (LoadGifDelays img s).delaysMs[i]? = some d ∧ 10 ≤ d := by
  by_cases h0 : img.frameDelaySize = 0
  · refine ⟨100, ?_, by omega⟩
    rw [LoadGifDelays_default img s (Or.inl h0)]
    simp [hi]
  · cases hitem : img.frameDelayItem with
    | none =>
      refine ⟨100, ?_, by omega⟩
      rw [LoadGifDelays_default img s (Or.inr (Or.inl hitem))]
      simp [hi]
    | some pi =>
      by_cases hlen : pi.length < 4
      · refine ⟨100, ?_, by omega⟩
        rw [LoadGifDelays_default img s (Or.inr (Or.inr ⟨pi, hitem, hlen⟩))]
        simp [hi]
      · exact ⟨_, (LoadGifDelays_declared img s pi h0 hitem (by omega)).2 i hi,
          frameDelayMs_ge _ _ _⟩

/-- Witness of `LoadGifDelays_entries_at_least_10`: the last of three frames
when the metadata declares a single, overflowing delay. -/
theorem LoadGifDelays_entries_at_least_10_witness :
    2 < (framesState 3).frameCount ∧
    ∃ d, (LoadGifDelays (delayImage 16 (some hugeDelay)) (framesState 3)).delaysMs[2]? = some d ∧
      10 ≤ d :=
  ⟨by decide,
   LoadGifDelays_entries_at_least_10 (delayImage 16 (some hugeDelay)) (framesState 3) 2
     (by decide)⟩

/-- C4: when the metadata declares delays for only `k` frames, `1 <= k < n`,
entries `k..n-1` of the table built by `LoadGifDelays` all equal entry `k-1`. -/
theorem LoadGifDelays_short_metadata_repeats_last (img : Image) (s : State)
    (pi : PropertyItem) (k i : Nat)
    (hsize : img.frameDelaySize ≠ 0) (hitem : img.frameDelayItem = some pi)
    (hk : pi.length / 4 = k) (hk1 : 1 ≤ k) (hkn : k < s.frameCount)
    (hki : k ≤ i) (hin : i < s.frameCount) :
    ∃ d, (LoadGifDelays img s).delaysMs[k - 1]? = some d ∧
      (LoadGifDelays img s).delaysMs[i]? = some d := by
  have hlen : 4 ≤ pi.length := by omega
  have h := (LoadGifDelays_declared img s pi hsize hitem hlen).2
  refine ⟨frameDelayMs pi k (k - 1), ?_, ?_⟩
  · rw [h (k - 1) (by omega), hk]
  · rw [h i hin, hk]
    unfold frameDelayMs
    have h1 : ¬ i < k := by omega
    have h2 : k - 1 < k := by omega
    simp only [h1, h2, if_true, if_false]

/-- Witness of `LoadGifDelays_short_metadata_repeats_last`: three frames with two
declared delays yielding 20 ms and 40 ms give the table [20, 40, 40]. -/
theorem LoadGifDelays_short_metadata_repeats_last_witness :
    (LoadGifDelays (delayImage 24 (some twoDelays)) (framesState 3)).delaysMs = [20, 40, 40] ∧
    ∃ d, (LoadGifDelays (delayImage 24 (some twoDelays)) (framesState 3)).delaysMs[2 - 1]?
        = some d ∧
      (LoadGifDelays (delayImage 24 (some twoDelays)) (framesState 3)).delaysMs[2]? = some d :=
  ⟨by decide,
   LoadGifDelays_short_metadata_repeats_last (delayImage 24 (some twoDelays)) (framesState 3)
     twoDelays 2 2 (by decide) rfl (by decide) (by decide) (by decide) (by decide) (by decide)⟩

/-- C5: when the asset declares zero durations (the frame-delay property has
size 0, cannot be read, or is shorter than one 4-byte entry), `LoadGifDelays`
yields a table of length `n` whose every entry is 100 ms. -/
theorem LoadGifDelays_no_metadata_uniform_100 (img : Image) (s : State)
    (h : img.frameDelaySize = 0 ∨ img.frameDelayItem = none ∨
      ∃ pi, img.frameDelayItem = some pi ∧ pi.length < 4) :
    (LoadGifDelays img s).delaysMs.length = s.frameCount ∧
    (∀ i, i < s.frameCount → (LoadGifDelays img s).delaysMs[i]? = some 100) ∧
    (LoadGifDelays img s).delaysMs = List.replicate s.frameCount 100 := by
  rw [LoadGifDelays_default img s h]
  refine ⟨by simp, ?_, rfl⟩
  intro i hi
  simp [hi]

/-- Witness of `LoadGifDelays_no_metadata_uniform_100`: three frames and a
property of 3 bytes. -/
theorem LoadGifDelays_no_metadata_uniform_100_witness :
    (LoadGifDelays (delayImage 19 (some { length := 3, value := [7, 0, 0] }))
        (framesState 3)).delaysMs.length = (framesState 3).frameCount ∧
    (∀ i, i < (framesState 3).frameCount →
      (LoadGifDelays (delayImage 19 (some { length := 3, value := [7, 0, 0] }))
        (framesState 3)).delaysMs[i]? = some 100) ∧
    (LoadGifDelays (delayImage 19 (some { length := 3, value := [7, 0, 0] }))
        (framesState 3)).delaysMs = List.replicate (framesState 3).frameCount 100 :=
  LoadGifDelays_no_metadata_uniform_100
    (delayImage 19 (some { length := 3, value := [7, 0, 0] })) (framesState 3)
    (Or.inr (Or.inr ⟨{ length := 3, value := [7, 0, 0] }, rfl, by decide⟩))

/-- C6: whatever the metadata, the table built by `LoadGifDelays` has exactly
as many entries as there are frames. -/
theorem LoadGifDelays_length_eq_frameCount (img : Image) (s : State) :
    (LoadGifDelays img s).delaysMs.length = s.frameCount :=
  LoadGifDelays_length_at img s

/-- C7, as stated, fails: a single frame whose declared delay is 429496730
hundredths of a second gets the entry 10, which is neither 429496730 * 10 nor
the non-zero 32-bit product 4. -/
theorem LoadGifDelays_overflowing_delay_is_floored :
    readUInt hugeDelay.value 0 = 429496730 ∧
    (LoadGifDelays (delayImage 16 (some hugeDelay)) (framesState 1)).delaysMs[0]? = some 10 ∧
    (LoadGifDelays (delayImage 16 (some hugeDelay)) (framesState 1)).delaysMs[0]?
      ≠ some (specDelayMs (readUInt hugeDelay.value 0)) ∧
    wrapUInt (readUInt hugeDelay.value 0 * 10) = 4 := by
  decide

/-- C7, amended: for every frame `i` that has a declared delay `d`, the table
entry built by `LoadGifDelays` is `d * 10` reduced modulo `2^32`, with a result
below 10 replaced by 10; when `d * 10 < 2^32` this is `d * 10` with 0 replaced
by 10. -/
theorem LoadGifDelays_declared_entry (img : Image) (s : State) (pi : PropertyItem)
    (i d : Nat)
    (hsize : img.frameDelaySize ≠ 0) (hitem : img.frameDelayItem = some pi)
    (hdecl : i < pi.length / 4) (hin : i < s.frameCount)
    (hd : readUInt pi.value i = d) :
    (LoadGifDelays img s).delaysMs[i]? =
      some (if d * 10 % 4294967296 < 10 then 10 else d * 10 % 4294967296) ∧
    (d * 10 < 4294967296 → (LoadGifDelays img s).delaysMs[i]? = some (specDelayMs d)) := by
  have hlen : 4 ≤ pi.length := by omega
  have h := (LoadGifDelays_declared img s pi hsize hitem hlen).2 i hin
  have e : frameDelayMs pi (pi.length / 4) i =
      if d * 10 % 4294967296 < 10 then 10 else d * 10 % 4294967296 := by
    unfold frameDelayMs wrapUInt
    simp only [hdecl, if_true, hd]
  rw [h, e]
  refine ⟨rfl, ?_⟩
  intro hsmall
  unfold specDelayMs
  rw [Nat.mod_eq_of_lt hsmall]
  congr 1
  split_ifs <;> omega

/-- Witness of `LoadGifDelays_declared_entry`: the second of three frames, with
a declared delay of 4 hundredths of a second, gets 40 ms. -/
theorem LoadGifDelays_declared_entry_witness :
    (LoadGifDelays (delayImage 24 (some twoDelays)) (framesState 3)).delaysMs[1]? =
      some (if 4 * 10 % 4294967296 < 10 then 10 else 4 * 10 % 4294967296) ∧
    (4 * 10 < 4294967296 →
      (LoadGifDelays (delayImage 24 (some twoDelays)) (framesState 3)).delaysMs[1]? =
        some (specDelayMs 4)) :=
  LoadGifDelays_declared_entry (delayImage 24 (some twoDelays)) (framesState 3) twoDelays 1 4
    (by decide) rfl (by decide) (by decide) (by decide)

/-! ## Animation clock -/

theorem RenderLayered_fields (s : State) :
    (RenderLayered s).gif = s.gif ∧ (RenderLayered s).frameCount = s.frameCount ∧
    (RenderLayered s).frameIndex = s.frameIndex ∧ (RenderLayered s).delaysMs = s.delaysMs ∧
    (RenderLayered s).gifTimer = s.gifTimer := by
  unfold RenderLayered
  split_ifs <;> exact ⟨rfl, rfl, rfl, rfl, rfl⟩

theorem delayLoop_fields (pi : PropertyItem) (count : Nat) (is : List Nat) (s : State) :
    (is.foldl (delayLoopBody pi count) s).gif = s.gif ∧
    (is.foldl (delayLoopBody pi count) s).frameCount = s.frameCount ∧
    (is.foldl (delayLoopBody pi count) s).frameIndex = s.frameIndex := by
  induction is generalizing s with
  | nil => exact ⟨rfl, rfl, rfl⟩
  | cons i is ih =>
    simp only [List.foldl_cons]
    obtain ⟨h1, h2, h3⟩ := ih (delayLoopBody pi count s i)
    exact ⟨h1, h2, h3⟩

theorem LoadGifDelays_fields (img : Image) (s : State) :
    (LoadGifDelays img s).gif = s.gif ∧ (LoadGifDelays img s).frameCount = s.frameCount ∧
    (LoadGifDelays img s).frameIndex = s.frameIndex := by
  unfold LoadGifDelays
  dsimp only
  split_ifs
  · exact ⟨rfl, rfl, rfl⟩
  · split
    · exact ⟨rfl, rfl, rfl⟩
    · split_ifs
      · exact ⟨rfl, rfl, rfl⟩
      · exact delayLoop_fields _ _ _ _

theorem InitGifFromFile_ok (env : Env) (s : State) (h : (InitGifFromFile env s).2 = true) :
    (InitGifFromFile env s).1.gif = some env.image ∧
    (InitGifFromFile env s).1.frameCount = env.image.frameCount ∧
    0 < (InitGifFromFile env s).1.frameCount ∧
    (InitGifFromFile env s).1.frameIndex = 0 ∧
    (InitGifFromFile env s).1.delaysMs.length = (InitGifFromFile env s).1.frameCount := by
  unfold InitGifFromFile at h ⊢
  dsimp only at h ⊢
  by_cases h1 : env.image.lastStatusOk = true
  · by_cases h2 : env.image.frameDimensionsCount = 0
    · simp [h1, h2] at h
    · by_cases h3 : env.image.frameCount = 0
      · simp [h1, h2, h3] at h
      · simp only [h1, h2, h3, Bool.not_true, if_false, Bool.false_eq_true]
        refine ⟨?_, ?_, ?_, ?_, ?_⟩
        · rw [(LoadGifDelays_fields _ _).1]
        · rw [(LoadGifDelays_fields _ _).2.1]
        · rw [(LoadGifDelays_fields _ _).2.1]; exact Nat.pos_of_ne_zero h3
        · rw [(LoadGifDelays_fields _ _).2.2]
        · rw [LoadGifDelays_length_at, (LoadGifDelays_fields _ _).2.1]
  · simp [h1] at h

theorem CreateBackbuffer_fields (env : Env) (w h : Int) (s : State) :
    (CreateBackbuffer env w h s).1.gif = s.gif ∧
    (CreateBackbuffer env w h s).1.frameCount = s.frameCount ∧
    (CreateBackbuffer env w h s).1.frameIndex = s.frameIndex ∧
    (CreateBackbuffer env w h s).1.delaysMs = s.delaysMs := by
  unfold CreateBackbuffer
  dsimp only
  split_ifs <;> exact ⟨rfl, rfl, rfl, rfl⟩

/-- State in which `WM_CREATE` arms the timers, when it gets that far. -/
theorem wmCreate_ok (env : Env) (s : State) (h : (wmCreate env s).2 = 0) :
    (DownloadToTempFile env s).2 = true ∧
    (InitGifFromFile env (DownloadToTempFile env s).1).2 = true ∧
    (wmCreate env s).1.gif = (InitGifFromFile env (DownloadToTempFile env s).1).1.gif ∧
    (wmCreate env s).1.frameCount =
      (InitGifFromFile env (DownloadToTempFile env s).1).1.frameCount ∧
    (wmCreate env s).1.frameIndex =
      (InitGifFromFile env (DownloadToTempFile env s).1).1.frameIndex ∧
    (wmCreate env s).1.delaysMs =
      (InitGifFromFile env (DownloadToTempFile env s).1).1.delaysMs ∧
    (wmCreate env s).1.gifTimer =
      some (if (wmCreate env s).1.delaysMs.isEmpty then 100
            else (wmCreate env s).1.delaysMs.getD 0 0) := by
  unfold wmCreate at h ⊢
  dsimp only at h ⊢
  by_cases h1 : (DownloadToTempFile env s).2 = true
  · by_cases h2 : (InitGifFromFile env (DownloadToTempFile env s).1).2 = true
    · by_cases h3 : (CreateBackbuffer env (InitGifFromFile env (DownloadToTempFile env s).1).1.w
          (InitGifFromFile env (DownloadToTempFile env s).1).1.h
          (InitGifFromFile env (DownloadToTempFile env s).1).1).2 = true
      · simp only [h1, h2, h3, Bool.not_true, if_false, Bool.false_eq_true]
        obtain ⟨c1, c2, c3, c4⟩ := CreateBackbuffer_fields env
          (InitGifFromFile env (DownloadToTempFile env s).1).1.w
          (InitGifFromFile env (DownloadToTempFile env s).1).1.h
          (InitGifFromFile env (DownloadToTempFile env s).1).1
        refine ⟨trivial, trivial, ?_, ?_, ?_, ?_, ?_⟩
        · rw [(RenderLayered_fields _).1]; exact c1
        · rw [(RenderLayered_fields _).2.1]; exact c2
        · rw [(RenderLayered_fields _).2.2.1]; exact c3
        · rw [(RenderLayered_fields _).2.2.2.1]; exact c4
        · rw [(RenderLayered_fields _).2.2.2.2, (RenderLayered_fields _).2.2.2.1]
      · simp [h1, h2, h3] at h
    · simp [h1, h2] at h
  · simp [h1] at h

/-- C8: while the clock runs (an image is loaded), with `n > 0` frames, active
index `i < n` and a duration table of length `n`, one animation-timer tick sets the active index to `(i + 1) mod n`
and re-arms the timer with the table entry of that new index, leaving image,
frame count and table as they were; and a start-up that succeeds leaves index
0 active and arms the timer with entry 0 of the table. -/
theorem animation_tick_advances_and_reschedules :
    (∀ (env : Env) (s : State), s.gif.isSome = true → 0 < s.frameCount →
      s.frameCount < 4294967296 → s.frameIndex < s.frameCount →
      s.delaysMs.length = s.frameCount →
        (WndProc env (Msg.timer g_gifTimerId) s).1.frameIndex
          = (s.frameIndex + 1) % s.frameCount ∧
        (∃ d, s.delaysMs[(s.frameIndex + 1) % s.frameCount]? = some d ∧
          (WndProc env (Msg.timer g_gifTimerId) s).1.gifTimer = some d) ∧
        (WndProc env (Msg.timer g_gifTimerId) s).1.gif = s.gif ∧
        (WndProc env (Msg.timer g_gifTimerId) s).1.frameCount = s.frameCount ∧
        (WndProc env (Msg.timer g_gifTimerId) s).1.delaysMs = s.delaysMs) ∧
    (∀ (env : Env) (s : State), (WndProc env Msg.create s).2 = 0 →
        (WndProc env Msg.create s).1.gif = some env.image ∧
        (WndProc env Msg.create s).1.frameCount = env.image.frameCount ∧
        0 < (WndProc env Msg.create s).1.frameCount ∧
        (WndProc env Msg.create s).1.frameIndex = 0 ∧
        (WndProc env Msg.create s).1.delaysMs.length = (WndProc env Msg.create s).1.frameCount ∧
        ∃ d, (WndProc env Msg.create s).1.delaysMs[0]? = some d ∧
          (WndProc env Msg.create s).1.gifTimer = some d) := by
  constructor
  · intro env s hgif hn hn32 hi hlen
    have hw : wrapUInt (s.frameIndex + 1) = s.frameIndex + 1 := by
      unfold wrapUInt; exact Nat.mod_eq_of_lt (by omega)
    have hlt : (s.frameIndex + 1) % s.frameCount < s.delaysMs.length := by
      rw [hlen]; exact Nat.mod_lt _ hn
    simp only [WndProc, wmTimer, if_true, hw, hlt]
    rw [if_pos (by simp [hgif, hn])]
    refine ⟨?_, ?_, ?_, ?_, ?_⟩
    · rw [(RenderLayered_fields _).2.2.1]
    · refine ⟨s.delaysMs.getD ((s.frameIndex + 1) % s.frameCount) 0, ?_, ?_⟩
      · rw [List.getD_eq_getElem?_getD, List.getElem?_eq_getElem hlt]; rfl
      · rw [(RenderLayered_fields _).2.2.2.2]
    · rw [(RenderLayered_fields _).1]
    · rw [(RenderLayered_fields _).2.1]
    · rw [(RenderLayered_fields _).2.2.2.1]
  · intro env s h
    have h0 : (wmCreate env s).2 = 0 := h
    obtain ⟨_, k2, g1, g2, g3, g4, g5⟩ := wmCreate_ok env s h0
    obtain ⟨i1, i2, i3, i4, i5⟩ := InitGifFromFile_ok env _ k2
    have e : WndProc env Msg.create s = wmCreate env s := rfl
    rw [e]
    have hlen : (wmCreate env s).1.delaysMs.length = (wmCreate env s).1.frameCount := by
      rw [g4, g2]; exact i5
    have hpos : 0 < (wmCreate env s).1.frameCount := by rw [g2]; exact i3
    refine ⟨by rw [g1]; exact i1, by rw [g2]; exact i2, hpos, by rw [g3]; exact i4, hlen, ?_⟩
    have hl : 0 < (wmCreate env s).1.delaysMs.length := by omega
    have hne : (wmCreate env s).1.delaysMs.isEmpty = false := by
      cases hd : (wmCreate env s).1.delaysMs with
      | nil => rw [hd] at hl; simp at hl
      | cons a l => rfl
    refine ⟨(wmCreate env s).1.delaysMs.getD 0 0, ?_, ?_⟩
    · rw [List.getD_eq_getElem?_getD, List.getElem?_eq_getElem hl]; rfl
    · rw [g5, hne]; rfl

/-- Witness of `animation_tick_advances_and_reschedules`: three frames with
durations [50, 100, 10]; start-up arms the timer with 50 ms at index 0, the ticks
then give index 1 with 100 ms, index 2 with 10 ms and index 0 with 50 ms. -/
theorem animation_tick_advances_and_reschedules_witness :
    ((WndProc goodEnv Msg.create initialState).1.delaysMs = [50, 100, 10] ∧
     (WndProc goodEnv Msg.create initialState).1.frameIndex = 0 ∧
     (WndProc goodEnv Msg.create initialState).1.gifTimer = some 50) ∧
    ((WndProc goodEnv (Msg.timer g_gifTimerId) (runningState 0)).1.frameIndex = 1 ∧
     (WndProc goodEnv (Msg.timer g_gifTimerId) (runningState 0)).1.gifTimer = some 100) ∧
    ((WndProc goodEnv (Msg.timer g_gifTimerId) (runningState 1)).1.frameIndex = 2 ∧
     (WndProc goodEnv (Msg.timer g_gifTimerId) (runningState 1)).1.gifTimer = some 10) ∧
    ((WndProc goodEnv (Msg.timer g_gifTimerId) (runningState 2)).1.frameIndex = 0 ∧
     (WndProc goodEnv (Msg.timer g_gifTimerId) (runningState 2)).1.gifTimer = some 50) ∧
    (WndProc goodEnv (Msg.timer g_gifTimerId) (runningState 2)).1.frameIndex
      = ((runningState 2).frameIndex + 1) % (runningState 2).frameCount ∧
    (∃ d, (WndProc goodEnv Msg.create initialState).1.delaysMs[0]? = some d ∧
      (WndProc goodEnv Msg.create initialState).1.gifTimer = some d) :=
  ⟨by decide, by decide, by decide, by decide,
   (animation_tick_advances_and_reschedules.1 goodEnv (runningState 2) (by decide) (by decide)
      (by decide) (by decide) (by decide)).1,
   (animation_tick_advances_and_reschedules.2 goodEnv initialState (by decide)).2.2.2.2.2⟩

/-! ## Shutdown -/

theorem renderCount_append (a b : List Effect) :
    renderCount (a ++ b) = renderCount a + renderCount b := by
  induction a with
  | nil => simp [renderCount]
  | cons e a ih => cases e <;> simp [renderCount, ih] <;> omega

theorem BounceStep_gif_trace (env : Env) (s : State) :
    (BounceStep env s).gif = s.gif ∧ (BounceStep env s).trace = s.trace := by
  unfold BounceStep
  dsimp only
  split_ifs <;> exact ⟨rfl, rfl⟩

theorem RenderLayered_stopped (s : State) (h : s.gif = none) : RenderLayered s = s := by
  unfold RenderLayered
  simp [h]

theorem wmDestroy_stops (s : State) :
    (wmDestroy s).1.gif = none ∧
    renderCount (wmDestroy s).1.trace = renderCount s.trace := by
  unfold wmDestroy SafeDeleteGif FreeBackbuffer
  dsimp only
  split_ifs <;> simp [renderCount_append, renderCount]

/-- Once the image is released, no message other than `WM_CREATE` brings it
back or draws. -/
theorem stopped_step (env : Env) (msg : Msg) (s : State) (hg : s.gif = none)
    (hm : msg ≠ Msg.create) :
    (WndProc env msg s).1.gif = none ∧
    renderCount (WndProc env msg s).1.trace = renderCount s.trace := by
  cases msg with
  | create => exact absurd rfl hm
  | nchittest => exact ⟨hg, rfl⟩
  | erasebkgnd => exact ⟨hg, rfl⟩
  | quit => exact ⟨hg, rfl⟩
  | other => exact ⟨hg, rfl⟩
  | destroy => exact wmDestroy_stops s
  | hotkey wParam =>
    unfold WndProc
    dsimp only
    split_ifs
    · obtain ⟨d1, d2⟩ := wmDestroy_stops { s with trace := s.trace ++ [Effect.destroyWindow] }
      refine ⟨d1, ?_⟩
      rw [d2]
      simp [renderCount_append, renderCount]
    · exact ⟨hg, rfl⟩
  | timer wParam =>
    have hb := BounceStep_gif_trace env s
    have hr : RenderLayered (BounceStep env s) = BounceStep env s :=
      RenderLayered_stopped _ (by rw [hb.1]; exact hg)
    simp only [WndProc, wmTimer, hg, Option.isSome_none, Bool.and_false, Bool.false_and,
      Bool.false_eq_true, if_false, hr]
    split_ifs
    · exact ⟨by rw [hb.1]; exact hg, by rw [hb.2]⟩
    · exact ⟨hg, rfl⟩

/-- A timer message that arrives once the image is released adds nothing to
the log. -/
theorem stopped_timer_trace (env : Env) (timerId : Nat) (s : State) (hg : s.gif = none) :
    (WndProc env (Msg.timer timerId) s).1.trace = s.trace := by
  have hb := BounceStep_gif_trace env s
  have hr : RenderLayered (BounceStep env s) = BounceStep env s :=
    RenderLayered_stopped _ (by rw [hb.1]; exact hg)
  simp only [WndProc, wmTimer, hg, Option.isSome_none, Bool.and_false, Bool.false_and,
    Bool.false_eq_true, if_false, hr]
  split_ifs
  · exact hb.2
  · rfl

theorem stopped_dispatchAll (later : List (Env × Msg)) (s : State) (hg : s.gif = none)
    (hnc : ∀ em ∈ later, em.2 ≠ Msg.create) :
    (dispatchAll later s).gif = none ∧
    renderCount (dispatchAll later s).trace = renderCount s.trace := by
  induction later generalizing s with
  | nil => exact ⟨hg, rfl⟩
  | cons em later ih =>
    obtain ⟨env, msg⟩ := em
    have hstep := stopped_step env msg s hg (hnc (env, msg) (List.mem_cons_self _ _))
    have hrest := ih (WndProc env msg s).1 hstep.1
      (fun em hem => hnc em (List.mem_cons_of_mem _ hem))
    exact ⟨hrest.1, by rw [← hstep.2]; exact hrest.2⟩

/-- C9: after the `WM_DESTROY` handler has run, whatever messages other than
`WM_CREATE` follow, no frame draw and no `UpdateLayeredWindow` presentation is
added to the log, and a timer message, for either timer, adds nothing to it. -/
theorem no_render_after_destroy (env : Env) (s : State) (later : List (Env × Msg))
    (hnc : ∀ em ∈ later, em.2 ≠ Msg.create) (envT : Env) (timerId : Nat) :
    renderCount (dispatchAll later (WndProc env Msg.destroy s).1).trace
      = renderCount (WndProc env Msg.destroy s).1.trace ∧
    (WndProc envT (Msg.timer timerId) (dispatchAll later (WndProc env Msg.destroy s).1)).1.trace
      = (dispatchAll later (WndProc env Msg.destroy s).1).trace := by
  have hd : (WndProc env Msg.destroy s).1.gif = none := (wmDestroy_stops s).1
  obtain ⟨hg, hr⟩ := stopped_dispatchAll later _ hd hnc
  exact ⟨hr, stopped_timer_trace envT timerId _ hg⟩

/-- Witness of `no_render_after_destroy`: a running three-frame animation is
destroyed; an animation tick, a movement tick and the hotkey follow, then a
movement tick. -/
theorem no_render_after_destroy_witness :
    (∀ em ∈ [(goodEnv, Msg.timer 1), (goodEnv, Msg.timer 2), (goodEnv, Msg.hotkey 1001)],
      em.2 ≠ Msg.create) ∧
    renderCount (dispatchAll
        [(goodEnv, Msg.timer 1), (goodEnv, Msg.timer 2), (goodEnv, Msg.hotkey 1001)]
        (WndProc goodEnv Msg.destroy (runningState 1)).1).trace
      = renderCount (WndProc goodEnv Msg.destroy (runningState 1)).1.trace ∧
    (WndProc goodEnv (Msg.timer 2) (dispatchAll
        [(goodEnv, Msg.timer 1), (goodEnv, Msg.timer 2), (goodEnv, Msg.hotkey 1001)]
        (WndProc goodEnv Msg.destroy (runningState 1)).1)).1.trace
      = (dispatchAll
        [(goodEnv, Msg.timer 1), (goodEnv, Msg.timer 2), (goodEnv, Msg.hotkey 1001)]
        (WndProc goodEnv Msg.destroy (runningState 1)).1).trace :=
  ⟨by decide,
   no_render_after_destroy goodEnv (runningState 1)
     [(goodEnv, Msg.timer 1), (goodEnv, Msg.timer 2), (goodEnv, Msg.hotkey 1001)]
     (by decide) goodEnv 2⟩

/-! ## Start-up failure -/

/-- A failed download leaves the globals alone except for the temp path, and
logs at most the deletion of the partial file. -/
theorem DownloadToTempFile_fail (env : Env) (s : State)
    (h : (DownloadToTempFile env s).2 = false) :
    ∃ b t, (DownloadToTempFile env s).1 = { s with tempGifPath := b, trace := s.trace ++ t } ∧
      (t = [] ∨ t = [Effect.deleteFile]) := by
  unfold DownloadToTempFile at h ⊢
  dsimp only at h ⊢
  split_ifs at h ⊢
  · exact ⟨s.tempGifPath, [], by simp, Or.inl rfl⟩
  · exact ⟨s.tempGifPath, [], by simp, Or.inl rfl⟩
  · exact ⟨true, [], by simp, Or.inl rfl⟩
  · exact ⟨true, [], by simp, Or.inl rfl⟩
  · exact ⟨true, [], by simp, Or.inl rfl⟩
  · exact ⟨false, [Effect.deleteFile], rfl, Or.inr rfl⟩

theorem wmCreate_download_fail (env : Env) (s : State)
    (h : (DownloadToTempFile env s).2 = false) :
    wmCreate env s =
      ({ (DownloadToTempFile env s).1 with
          trace := (DownloadToTempFile env s).1.trace
            ++ [Effect.messageBox ErrorText.downloadFailed] }, -1) := by
  unfold wmCreate
  simp [h]

/-- C10, as stated, fails: when `GetTempPathW` fails the download fails and
`wWinMain` returns 0, whether or not the rejected window is sent `WM_DESTROY`. -/
theorem startup_download_failure_exit_code_is_zero :
    (DownloadToTempFile (failingHost true).createEnv initialState).2 = false ∧
    Option.map Prod.fst (wWinMain (failingHost true) []) = some 0 ∧
    Option.map Prod.fst (wWinMain (failingHost false) []) = some 0 ∧
    ¬ (∃ c : Int, c ≠ 0 ∧ Option.map Prod.fst (wWinMain (failingHost true) []) = some c) := by
  refine ⟨by decide, by decide, by decide, ?_⟩
  rintro ⟨c, hc, h⟩
  have h0 : Option.map Prod.fst (wWinMain (failingHost true) []) = some 0 := by decide
  rw [h0] at h
  exact hc (Option.some.inj h).symm

/-- C10, amended: when the asset download fails at start-up, the error box is
shown, no back buffer is allocated, the window is never shown or presented,
and `wWinMain` returns early with exit code 0. -/
theorem startup_download_failure (host : Host) (msgs : List (Env × Msg))
    (hgdi : host.gdiplusStartupOk = true) (hsend : host.sendsCreate = true)
    (hfail : (DownloadToTempFile host.createEnv initialState).2 = false) :
    ∃ s, wWinMain host msgs = some (0, s) ∧
      Effect.messageBox ErrorText.downloadFailed ∈ s.trace ∧
      (∀ w h, Effect.createDIBSection w h ∉ s.trace) ∧
      s.hDib = false ∧ s.dibBits = false ∧ s.memDC = false ∧
      Effect.showWindow ∉ s.trace ∧
      renderCount s.trace = 0 := by
  obtain ⟨b, t, hD, ht⟩ := DownloadToTempFile_fail host.createEnv initialState hfail
  have hc := wmCreate_download_fail host.createEnv initialState hfail
  have hw : WndProc host.createEnv Msg.create initialState
      = wmCreate host.createEnv initialState := rfl
  unfold wWinMain CreateWindowExW
  simp only [hgdi, hsend, hw, hc, hD, Bool.not_true, Bool.false_eq_true, if_false, if_true]
  cases host.destroyAfterFailedCreate <;> cases b <;> rcases ht with rfl | rfl <;>
    simp [WndProc, wmDestroy, FreeBackbuffer, SafeDeleteGif, initialState, renderCount]

/-- Witness of `startup_download_failure`: `GetTempPathW` fails. -/
theorem startup_download_failure_witness :
    (failingHost true).gdiplusStartupOk = true ∧ (failingHost true).sendsCreate = true ∧
    (DownloadToTempFile (failingHost true).createEnv initialState).2 = false ∧
    ∃ s, wWinMain (failingHost true) [] = some (0, s) ∧
      Effect.messageBox ErrorText.downloadFailed ∈ s.trace ∧
      (∀ w h, Effect.createDIBSection w h ∉ s.trace) ∧
      s.hDib = false ∧ s.dibBits = false ∧ s.memDC = false ∧
      Effect.showWindow ∉ s.trace ∧
      renderCount s.trace = 0 :=
  ⟨rfl, rfl, by decide,
   startup_download_failure (failingHost true) [] rfl rfl (by decide)⟩

end GifFace
